import Mathlib

/-!
Shallow embedding of the validation-and-reconciliation core of the
spreadsheet-ingestion pipeline (src/validation.py, src/main.py,
src/utils.py, src/schemas.py), together with theorems settling the
frozen claims about it.

Modelling conventions:
* A pandas DataFrame is a rectangular table: a list of column names and a
  list of rows, each row a list of cell values aligned with the columns.
* Cell values are integers, floats (modelled as rationals, since no claim
  depends on rounding), strings, booleans, or null (NaN/None/NaT).
* Machine integers are modelled as Int; pandas int64 overflow is never
  exercised by the claims.
* Fallible operations (a missing column raises KeyError in pandas) return
  Option.
-/

namespace Ingest

/-- A cell value of a DataFrame.  vNull stands for NaN/None/NaT. -/
inductive Value where
  | vInt (i : Int)
  | vFloat (q : Rat)
  | vStr (s : String)
  | vBool (b : Bool)
  | vNull
deriving DecidableEq

abbrev Row := List Value

/-- A pandas DataFrame: frame-level column names plus rows of cells,
each row aligned positionally with the column list. -/
structure DataFrame where
  columns : List String
  rows : List Row
deriving DecidableEq

/-- pd.DataFrame(): a frame with no columns and no rows. -/
def DataFrame.emptyDF : DataFrame := ⟨[], []⟩

/-- df.empty in pandas: true when the frame has no rows. -/
def DataFrame.isEmptyDF (df : DataFrame) : Bool := df.rows.isEmpty

/-- A frame is rectangular when every row has one cell per column.
Frames read from a spreadsheet always are. -/
def DataFrame.Rect (df : DataFrame) : Prop :=
  ∀ r ∈ df.rows, r.length = df.columns.length

instance (df : DataFrame) : Decidable df.Rect := by
  unfold DataFrame.Rect; infer_instance

/-- Column access df[c]: the list of cell values of column c, or none when
the column is absent (pandas raises KeyError). -/
def DataFrame.getCol (df : DataFrame) (c : String) : Option (List Value) :=
  if c ∈ df.columns then
    some (df.rows.map (fun r => r.getD (df.columns.indexOf c) Value.vNull))
  else none

/-- Column assignment df[c] = vals: replaces the column in place when it
exists, otherwise appends a new column on the right (pandas semantics). -/
def DataFrame.setCol (df : DataFrame) (c : String) (vals : List Value) : DataFrame :=
  if c ∈ df.columns then
    ⟨df.columns, List.zipWith (fun r v => r.set (df.columns.indexOf c) v) df.rows vals⟩
  else
    ⟨df.columns ++ [c], List.zipWith (fun r v => r ++ [v]) df.rows vals⟩

/-!
## Relationship reconciler (src/validation.py, validate_relationships)

The three .loc writes on lines 140-143 of src/validation.py assign the
reason column of the invalid rows sequentially: first the empty string for
every invalid row, then per-row overwrites by the three boolean masks.
Each invalid row receives the last write whose mask covers it, so the net
per-row effect is this function of the two membership flags of the row.
-/

/-- Net effect on one invalid row of the sequential reason writes of
src/validation.py lines 140-143 (later writes overwrite earlier ones). -/
def reasonFor (custOk prodOk : Bool) : String :=
  let r0 := ""
  let r1 := if !custOk then "Invalid customer_id" else r0
  let r2 := if !prodOk then "Invalid product_id" else r1
  if !(custOk && prodOk) then "Invalid customer_id and product_id" else r2

/-- The per-row membership masks of src/validation.py lines 131-132,
zipped: one (customer ok, product ok) pair per row. -/
def fkMasks (dfCust dfProd custRef prodRef : List Value) : List (Bool × Bool) :=
  (dfCust.map (fun v => custRef.contains v)).zip (dfProd.map (fun v => prodRef.contains v))

/-- df[valid_customers and valid_products] of src/validation.py
line 135: the rows whose combined mask is true, in input order. -/
def reconcileValid (rows : List Row) (m : List (Bool × Bool)) : List Row :=
  ((rows.zip m).filter (fun t => t.2.1 && t.2.2)).map Prod.fst

/-- The invalid rows of src/validation.py line 136, each kept with its
two membership flags (needed for the reason writes). -/
def reconcileInvalidTagged (rows : List Row) (m : List (Bool × Bool)) :
    List (Row × Bool × Bool) :=
  (rows.zip m).filter (fun t => !(t.2.1 && t.2.2))

/-- The invalid frame of src/validation.py lines 136-143: the invalid
rows, and, when there is at least one, a validation_reason column whose
per-row content is the net effect of the three sequential mask writes. -/
def reconcileInvalidDF (cols : List String) (rows : List Row) (m : List (Bool × Bool)) :
    DataFrame :=
  let it := reconcileInvalidTagged rows m
  if it.isEmpty then ⟨cols, []⟩
  else
    DataFrame.setCol ⟨cols, it.map Prod.fst⟩ "validation_reason"
      (it.map (fun t => Value.vStr (reasonFor t.2.1 t.2.2)))

/-- validate_relationships from src/validation.py lines 105-145.
Returns none when a needed customer_id/product_id column is absent
(pandas would raise KeyError).  Membership in the reference id sets is
decidable equality on cell values; the claims exercise integer ids, for
which this agrees with the Python set membership used by isin. -/
def validate_relationships (df : DataFrame) (customers_df products_df : DataFrame) :
    Option (DataFrame × DataFrame) :=
  if customers_df.isEmptyDF || products_df.isEmptyDF then
    some (DataFrame.emptyDF, df)
  else
    match customers_df.getCol "customer_id", products_df.getCol "product_id",
          df.getCol "customer_id", df.getCol "product_id" with
    | some custRef, some prodRef, some dfCust, some dfProd =>
      let m := fkMasks dfCust dfProd custRef prodRef
      some (⟨df.columns, reconcileValid df.rows m⟩,
            reconcileInvalidDF df.columns df.rows m)
    | _, _, _, _ => none

/-!
## Record validator (src/validation.py, validate_excel_file)
-/

/-- Digit list to a natural number. -/
def digitsToNat (cs : List Char) : Nat :=
  cs.foldl (fun n c => 10 * n + (c.toNat - 48)) 0

/-- Nonempty all-digit character list. -/
def isDigits (cs : List Char) : Bool :=
  !cs.isEmpty && cs.all Char.isDigit

/-- Model of the numeric-literal grammar accepted by pd.to_numeric on
strings: optional minus sign, an integer part, and an optional fractional
part.  The claims never exercise string-typed prices, so only this common
core of the pandas grammar is modelled. -/
def parseNumString (s : String) : Option Rat :=
  let cs := s.data
  let neg := cs.head? = some (Char.ofNat 45)
  let body := if neg then cs.tail else cs
  match body.splitOn (Char.ofNat 46) with
  | [ip] =>
    if isDigits ip then
      some ((if neg then -1 else 1) * (digitsToNat ip : Rat))
    else none
  | [ip, fp] =>
    if isDigits ip && isDigits fp then
      some ((if neg then -1 else 1) *
        ((digitsToNat ip : Rat) + (digitsToNat fp : Rat) / ((10 : Rat) ^ fp.length)))
    else none
  | _ => none

/-- pd.to_numeric(col, errors=coerce) followed by astype(float),
per cell (src/validation.py lines 28-30): numbers and booleans become
floats, parseable numeric strings become floats, everything else becomes
NaN. -/
def toNumeric : Value → Value
  | .vInt i => .vFloat (i : Rat)
  | .vFloat q => .vFloat q
  | .vBool b => .vFloat (if b then 1 else 0)
  | .vNull => .vNull
  | .vStr s =>
    match parseNumString s with
    | some q => .vFloat q
    | none => .vNull

/-- The Series.map dictionary of src/validation.py lines 43-56, per cell.
Python dictionary keys hash numerically, so the keys True/1 collide (both
mapping to True) and False/0 collide (both mapping to False); a float cell
equal to 1 or 0 therefore also hits those keys.  Unmapped cells become
NaN. -/
def mapActive : Value → Value
  | .vStr s =>
    if s = "TRUE" ∨ s = "true" ∨ s = "True" ∨ s = "1" then .vBool true
    else if s = "FALSE" ∨ s = "false" ∨ s = "False" ∨ s = "0" then .vBool false
    else .vNull
  | .vBool b => .vBool b
  | .vInt i => if i = 1 then .vBool true else if i = 0 then .vBool false else .vNull
  | .vFloat q => if q = 1 then .vBool true else if q = 0 then .vBool false else .vNull
  | .vNull => .vNull

/-- A cell of a float64 column: a float or NaN (NaN is itself a float). -/
def isFloatCell : Value → Bool
  | .vFloat _ => true
  | .vNull => true
  | _ => false

/-- A cell of a bool column: exactly the booleans (a bool dtype column
cannot hold NaN). -/
def isBoolCell : Value → Bool
  | .vBool _ => true
  | _ => false

/-- Partial model of pd.to_datetime acceptance, per cell: nulls become
NaT, numbers are epoch offsets, booleans raise, and strings are accepted
in ISO YYYY-MM-DD form.  The pandas string grammar is far larger; the
claims exercise only ISO strings and nulls, on which this model agrees
with pandas. -/
def isISODate (s : String) : Bool :=
  match s.data with
  | [c1, c2, c3, c4, s1, c5, c6, s2, c7, c8] =>
    s1 = Char.ofNat 45 && s2 = Char.ofNat 45 &&
    [c1, c2, c3, c4, c5, c6, c7, c8].all Char.isDigit &&
    (let m := 10 * (c5.toNat - 48) + (c6.toNat - 48)
     let d := 10 * (c7.toNat - 48) + (c8.toNat - 48)
     decide (1 ≤ m) && decide (m ≤ 12) && decide (1 ≤ d) && decide (d ≤ 31))
  | _ => false

/-- Per-cell acceptance of pd.to_datetime (see isISODate). -/
def parseDateValue : Value → Bool
  | .vNull => true
  | .vInt _ => true
  | .vFloat _ => true
  | .vBool _ => false
  | .vStr s => isISODate s

/-- The required_columns dictionary of src/validation.py lines 66-71
(identical to REQUIRED_COLUMNS of src/schemas.py). -/
def requiredColumns : String → Option (List String)
  | "customers" => some ["customer_id", "name", "country", "industry", "registration_date"]
  | "products" => some ["product_id", "description", "category", "price_usd", "active"]
  | "sales" => some ["sale_id", "customer_id", "product_id", "sale_date", "quantity", "channel", "payment_method"]
  | "support_tickets" => some ["ticket_id", "customer_id", "product_id", "status", "priority", "opened_at", "handled_by"]
  | _ => none

/-- The date_columns dictionary of src/validation.py lines 89-93. -/
def dateColumns : String → List String
  | "customers" => ["registration_date"]
  | "sales" => ["sale_date"]
  | "support_tickets" => ["opened_at"]
  | _ => []

/-- price_usd conversion of src/validation.py lines 25-34: coerce the
column in place and count the post-coercion nulls (the warning count of
line 32, which includes originally-null cells, as in the source). -/
def priceStep (df : DataFrame) : DataFrame × Nat :=
  match df.getCol "price_usd" with
  | some col =>
    let coerced := col.map toNumeric
    (df.setCol "price_usd" coerced, coerced.countP (fun v => decide (v = Value.vNull)))
  | none => (df, 0)

/-- active conversion of src/validation.py lines 40-60: map the column
in place through the boolean-encoding dictionary and count the
post-coercion nulls (the warning count of line 58). -/
def activeStep (df : DataFrame) : DataFrame × Nat :=
  match df.getCol "active" with
  | some col =>
    let coerced := col.map mapActive
    (df.setCol "active" coerced, coerced.countP (fun v => decide (v = Value.vNull)))
  | none => (df, 0)

/-- Result of validate_excel_file: the (possibly coerced in place) frame,
the validity flag, the accumulated error messages, and the two warning
counts computed on lines 32 and 58 of src/validation.py.  (The source
hands those counts to add_to_log with severity WARNING; they never become
errors.) -/
structure ExcelValidation where
  df : DataFrame
  ok : Bool
  errors : List String
  priceWarnings : Nat
  activeWarnings : Nat
deriving DecidableEq

/-- Missing-columns error of src/validation.py lines 77-79: one message
joining all absent required columns.  (The source iterates a Python set,
whose order is unspecified; the message here joins in required-list
order, and no claim depends on the order inside the message.) -/
def missingColumnsErrors (req : List String) (df : DataFrame) : List String :=
  let missing := req.filter (fun c => decide (c ∉ df.columns))
  if missing.isEmpty then []
  else ["Missing required columns: " ++ String.intercalate ", " missing]

/-- Post-conversion dtype checks of src/validation.py lines 82-86. -/
def productsDtypeErrors (df : DataFrame) : List String :=
  (match df.getCol "price_usd" with
   | some col =>
     if col.all isFloatCell then [] else ["price_usd must be float type after conversion"]
   | none => []) ++
  (match df.getCol "active" with
   | some col =>
     if !col.isEmpty && col.all isBoolCell then []
     else ["active must be boolean type after conversion"]
   | none => [])

/-- Date-parseability checks of src/validation.py lines 95-101. -/
def dateErrors (table_name : String) (df : DataFrame) : List String :=
  (dateColumns table_name).filterMap (fun c =>
    match df.getCol c with
    | some col => if col.all parseDateValue then none else some (c ++ " must be a valid date")
    | none => none)

/-- validate_excel_file from src/validation.py lines 9-103.  The boolean
dtype check of line 85 fails on an empty column (an empty frame column
keeps object dtype) and on any column containing NaN; the float dtype
check of line 83 always passes after the astype(float) of line 30, since
NaN is a float. -/
def validate_excel_file (df0 : DataFrame) (table_name : String) : ExcelValidation :=
  let step1 := if table_name = "products" then priceStep df0 else (df0, 0)
  let step2 := if table_name = "products" then activeStep step1.1 else (step1.1, 0)
  let df := step2.1
  match requiredColumns table_name with
  | none => ⟨df, false, ["Unknown table name: " ++ table_name], step1.2, step2.2⟩
  | some req =>
    let errors := missingColumnsErrors req df ++
      (if table_name = "products" then productsDtypeErrors df else []) ++
      dateErrors table_name df
    ⟨df, errors.isEmpty, errors, step1.2, step2.2⟩

/-!
## Incremental watermark tracker and orchestrator load phase
(src/main.py lines 151-188, src/utils.py)

The metadata store for the sales watermark is modelled as the max_id
value of the raw_sales row of the ingestion_metadata table: none when
the row is absent, some v when it holds v.  get_max_id (src/utils.py
lines 162-186) returns that value, degrading to 0 both when the row is
absent (the empty query result raises, is caught, and 0 is returned) and
when the stored value is NULL or 0 (the expression max_id or 0).
-/

/-- get_max_id of src/utils.py restricted to the raw_sales row: stored
value, or 0 when the row is absent. -/
def getMaxIdStore (s : Option Int) : Int := s.getD 0

/-- Maximum of a list of integers, 0 on the empty list (only ever applied
to nonempty lists, mirroring new_records not empty on line 174 of
src/main.py guarding the max() on line 177). -/
def listMax : List Int → Int
  | [] => 0
  | x :: xs => xs.foldl max x

/-- Observable I/O events of the sales incremental block of src/main.py,
in program order.  The load event carries whether the BigQuery job
succeeded; load_to_bigquery (src/utils.py lines 80-121) catches and logs
a failed job, so its caller cannot observe the flag. -/
inductive Event where
  | load (table : String) (ok : Bool)
  | updateMeta (table : String) (maxId : Option Int)
deriving DecidableEq

/-- Result of one execution of the sales incremental block. -/
structure SalesRun where
  forwarded : List Int
  store : Option Int
  events : List Event
deriving DecidableEq

/-- The sales incremental block of src/main.py lines 165-180, with the
sale_id column of the reconciled valid sales abstracted as the list of
its integer values (pandas int64 column).  loadOk says whether the
BigQuery load job for the forwarded records succeeds; load_to_bigquery
swallows a failure, so the block continues to update_metadata either
way. -/
def salesIncrementalLoad (validIds : List Int) (store : Option Int) (loadOk : Bool) : SalesRun :=
  if validIds.isEmpty then ⟨[], store, []⟩
  else
    let maxId := getMaxIdStore store
    let newRecords := validIds.filter (fun i => decide (maxId < i))
    if newRecords.isEmpty then ⟨[], store, []⟩
    else
      let newMaxId := listMax newRecords
      ⟨newRecords, some newMaxId,
        [Event.load "raw_sales" loadOk, Event.updateMeta "raw_sales" (some newMaxId)]⟩

/-- A warehouse call emitted by the load phase of src/main.py
lines 151-188. -/
inductive LoadOp where
  | load (table : String) (disposition : String) (df : DataFrame)
  | updateMeta (table : String) (maxId : Option Int)
deriving DecidableEq

/-- Table targeted by a load phase operation. -/
def LoadOp.table : LoadOp → String
  | .load t _ _ => t
  | .updateMeta t _ => t

/-- Lookup in the valid_dfs / invalid_dfs dictionaries of src/main.py. -/
def lookupDF (m : List (String × DataFrame)) (k : String) : Option DataFrame :=
  (m.find? (fun kv => kv.1 = k)).map (fun kv => kv.2)

/-- One iteration of the full-load loop of src/main.py lines 152-162:
load raw_t with WRITE_TRUNCATE (skipped by load_to_bigquery when the
frame is empty) and then update_metadata with no max_id. -/
def fullLoadOps (validDfs : List (String × DataFrame)) (t : String) : List LoadOp :=
  match lookupDF validDfs t with
  | none => []
  | some df =>
    (if df.isEmptyDF then [] else [LoadOp.load ("raw_" ++ t) "WRITE_TRUNCATE" df]) ++
    [LoadOp.updateMeta ("raw_" ++ t) none]

/-- The comparison sale_id greater than max_id on one cell of the sale_id
column (line 173 of src/main.py).  NaN compares false; pandas would raise
on a string or boolean cell in an integer comparison, but the claims only
exercise integer sale ids. -/
def saleIdGt (w : Int) : Value → Bool
  | .vInt i => decide (w < i)
  | .vFloat q => decide ((w : Rat) < q)
  | _ => false

/-- Integer value of a sale_id cell for the max() of line 177 of
src/main.py; the claims only exercise integer sale ids. -/
def saleIdInt : Value → Int
  | .vInt i => i
  | _ => 0

/-- df[df[c] op w] row filtering for the sale_id column: none when the
column is absent (KeyError in pandas). -/
def filterBySaleId (df : DataFrame) (w : Int) : Option DataFrame :=
  match df.getCol "sale_id" with
  | none => none
  | some col =>
    some ⟨df.columns, ((df.rows.zip col).filter (fun t => saleIdGt w t.2)).map (fun t => t.1)⟩

/-- The sales block of src/main.py lines 164-188 at the level of emitted
warehouse calls: incremental load of the valid records above the
watermark, watermark update, and the invalid_sales quarantine load.
Returns none when the sale_id column is absent (pandas KeyError aborts
the run). -/
def salesOps (validDfs invalidDfs : List (String × DataFrame)) (store : Option Int) :
    Option (List LoadOp) :=
  match lookupDF validDfs "sales" with
  | none => some []
  | some validDf =>
    let invalidDf := (lookupDF invalidDfs "sales").getD DataFrame.emptyDF
    let incOps : Option (List LoadOp) :=
      if validDf.isEmptyDF then some []
      else
        match filterBySaleId validDf (getMaxIdStore store) with
        | none => none
        | some newDf =>
          if newDf.isEmptyDF then some []
          else
            match newDf.getCol "sale_id" with
            | none => none
            | some col =>
              some [LoadOp.load "raw_sales" "WRITE_APPEND" newDf,
                    LoadOp.updateMeta "raw_sales" (some (listMax (col.map saleIdInt)))]
    match incOps with
    | none => none
    | some ops =>
      some (ops ++ (if invalidDf.isEmptyDF then [] else
        [LoadOp.load "invalid_sales" "WRITE_APPEND" invalidDf]))

/-- The whole load phase of src/main.py lines 151-188: full loads of
customers, products and support_tickets, then the sales block.  No other
warehouse call is made in the source; in particular nothing ever targets
the invalid_support_tickets table declared in src/schemas.py. -/
def loadPhase (validDfs invalidDfs : List (String × DataFrame)) (store : Option Int) :
    Option (List LoadOp) :=
  match salesOps validDfs invalidDfs store with
  | none => none
  | some sOps =>
    some (fullLoadOps validDfs "customers" ++ fullLoadOps validDfs "products" ++
          fullLoadOps validDfs "support_tickets" ++ sOps)

/-!
## Example frames used by concrete evaluations and witnesses
-/

/-- A two-customer reference frame. -/
def custRefEx : DataFrame :=
  ⟨["customer_id", "name"], [[.vInt 1, .vStr "Acme"], [.vInt 2, .vStr "Bee"]]⟩

/-- A one-product reference frame. -/
def prodRefEx : DataFrame :=
  ⟨["product_id", "description"], [[.vInt 10, .vStr "Widget"]]⟩

/-- Sales rows exercising all four membership cases against custRefEx
(customer ids 1 and 2 valid) and prodRefEx (product id 10 valid):
rows 101 and 102 are fully valid, row 103 fails only the customer check,
row 104 fails only the product check, row 105 fails both. -/
def salesEx : DataFrame :=
  ⟨["sale_id", "customer_id", "product_id"],
   [[.vInt 101, .vInt 1, .vInt 10],
    [.vInt 102, .vInt 2, .vInt 10],
    [.vInt 103, .vInt 999, .vInt 10],
    [.vInt 104, .vInt 1, .vInt 999],
    [.vInt 105, .vInt 999, .vInt 999]]⟩

/-- A products frame whose single active cell holds an unrecognized
encoding; every other cell satisfies every rule. -/
def prodBadEx : DataFrame :=
  ⟨["product_id", "description", "category", "price_usd", "active"],
   [[.vInt 1, .vStr "Widget", .vStr "tools", .vFloat 10, .vStr "yes"]]⟩

/-- A customers frame with every required column present, a parseable
registration date, and a null in the required name column. -/
def custNullEx : DataFrame :=
  ⟨["customer_id", "name", "country", "industry", "registration_date"],
   [[.vInt 1, .vNull, .vStr "PE", .vStr "tech", .vStr "2020-01-05"]]⟩

/-- A support_tickets frame whose single row references an unknown
customer, so reconciliation routes it to the invalid set. -/
def ticketsEx : DataFrame :=
  ⟨["ticket_id", "customer_id", "product_id", "status", "priority", "opened_at", "handled_by"],
   [[.vInt 7, .vInt 999, .vInt 10, .vStr "open", .vStr "high", .vStr "2024-01-02", .vStr "ana"]]⟩

/-- A full-schema sales frame with one valid row (sale 101) and one row
referencing an unknown customer (sale 103). -/
def salesFullEx : DataFrame :=
  ⟨["sale_id", "customer_id", "product_id", "sale_date", "quantity", "channel", "payment_method"],
   [[.vInt 101, .vInt 1, .vInt 10, .vStr "2024-01-01", .vInt 2, .vStr "web", .vStr "card"],
    [.vInt 103, .vInt 999, .vInt 10, .vStr "2024-01-03", .vInt 1, .vStr "web", .vStr "cash"]]⟩

/-- Reconciliation outputs of ticketsEx against the reference frames. -/
def c3TickRecon : DataFrame × DataFrame :=
  (validate_relationships ticketsEx custRefEx prodRefEx).getD
    (DataFrame.emptyDF, DataFrame.emptyDF)

/-- Reconciliation outputs of salesFullEx against the reference frames. -/
def c3SalesRecon : DataFrame × DataFrame :=
  (validate_relationships salesFullEx custRefEx prodRefEx).getD
    (DataFrame.emptyDF, DataFrame.emptyDF)

/-- The warehouse calls the load phase emits on the pipeline state in
which both reconciliations produced a non-empty invalid set. -/
def c3Ops : Option (List LoadOp) :=
  loadPhase
    [("customers", custRefEx), ("products", prodRefEx),
     ("support_tickets", c3TickRecon.1), ("sales", c3SalesRecon.1)]
    [("support_tickets", c3TickRecon.2), ("sales", c3SalesRecon.2)]
    none

/-- The cell values the active-column dictionary of src/validation.py
lines 43-56 maps to a boolean, Python numeric-key collisions included. -/
def activeMappedInputs : List Value :=
  [.vStr "TRUE", .vStr "true", .vStr "True", .vStr "1",
   .vStr "FALSE", .vStr "false", .vStr "False", .vStr "0",
   .vBool true, .vBool false, .vInt 1, .vInt 0, .vFloat 1, .vFloat 0]

/-- The rows of the original records carried by a frame returned as an
invalid set: when the frame carries the validation_reason column each row
is the original record extended by the reason cell on the right, so the
original is the row without its last cell; otherwise (the empty-reference
branch and the no-invalid-rows case) the rows are the originals
themselves. -/
def origRows (df : DataFrame) : List Row :=
  if "validation_reason" ∈ df.columns then df.rows.map List.dropLast else df.rows

/-!
## Auxiliary lemmas
-/

theorem le_foldl_max (l : List Int) (a : Int) : a ≤ l.foldl max a := by
  induction l generalizing a with
  | nil => exact le_refl a
  | cons x xs ih => exact le_trans (le_max_left a x) (ih (max a x))

theorem mem_le_foldl_max (l : List Int) (a x : Int) (h : x ∈ l) : x ≤ l.foldl max a := by
  induction l generalizing a with
  | nil => cases h
  | cons y ys ih =>
    rcases List.mem_cons.mp h with rfl | hy
    · exact le_trans (le_max_right a x) (le_foldl_max ys (max a x))
    · exact ih (max a y) hy

theorem le_listMax (l : List Int) (x : Int) (h : x ∈ l) : x ≤ listMax l := by
  cases l with
  | nil => cases h
  | cons a t =>
    rcases List.mem_cons.mp h with rfl | ht
    · exact le_foldl_max t x
    · exact mem_le_foldl_max t a x ht

theorem exists_mem_of_ne_nil {α : Type} (l : List α) (h : l ≠ []) : ∃ x, x ∈ l := by
  cases l with
  | nil => exact absurd rfl h
  | cons a t => exact ⟨a, List.mem_cons_self a t⟩

theorem getCol_length (df : DataFrame) (c : String) (col : List Value)
    (h : df.getCol c = some col) : col.length = df.rows.length := by
  unfold DataFrame.getCol at h
  split at h
  · cases h; simp
  · cases h

theorem getCol_mem (df : DataFrame) (c : String) (col : List Value)
    (h : df.getCol c = some col) : c ∈ df.columns := by
  unfold DataFrame.getCol at h
  split at h
  · assumption
  · cases h

theorem mem_zipWith {α β γ : Type} (f : α → β → γ) (l1 : List α) (l2 : List β) (x : γ)
    (h : x ∈ List.zipWith f l1 l2) : ∃ a b, a ∈ l1 ∧ b ∈ l2 ∧ x = f a b := by
  induction l1 generalizing l2 with
  | nil => cases h
  | cons a as ih =>
    cases l2 with
    | nil => cases h
    | cons b bs =>
      rcases List.mem_cons.mp h with rfl | hmem
      · exact ⟨a, b, List.mem_cons_self a as, List.mem_cons_self b bs, rfl⟩
      · obtain ⟨a0, b0, ha0, hb0, hx⟩ := ih bs hmem
        exact ⟨a0, b0, List.mem_cons_of_mem a ha0, List.mem_cons_of_mem b hb0, hx⟩

theorem setCol_columns_of_mem (df : DataFrame) (c : String) (vals : List Value)
    (h : c ∈ df.columns) : (df.setCol c vals).columns = df.columns := by
  unfold DataFrame.setCol
  rw [if_pos h]

theorem setCol_rect (df : DataFrame) (c : String) (vals : List Value)
    (hrect : df.Rect) (hc : c ∈ df.columns) : (df.setCol c vals).Rect := by
  unfold DataFrame.setCol
  rw [if_pos hc]
  intro r hr
  obtain ⟨a, b, ha, _, rfl⟩ := mem_zipWith _ _ _ _ hr
  simpa [List.length_set] using hrect a ha

theorem map_getD_zipWith_set (rows : List Row) (vals : List Value) (i j : Nat)
    (hij : i ≠ j) (hlen : vals.length = rows.length) :
    (List.zipWith (fun r v => r.set i v) rows vals).map (fun r => r.getD j Value.vNull) =
      rows.map (fun r => r.getD j Value.vNull) := by
  induction rows generalizing vals with
  | nil => simp
  | cons r rs ih =>
    cases vals with
    | nil => simp at hlen
    | cons v vs =>
      simp only [List.zipWith_cons_cons, List.map_cons]
      rw [ih vs (by simpa using hlen)]
      congr 1
      simp [List.getD, List.getElem?_set_ne hij]

theorem map_getD_zipWith_set_self (rows : List Row) (vals : List Value) (i : Nat)
    (hlen : vals.length = rows.length) (hbound : ∀ r ∈ rows, i < r.length) :
    (List.zipWith (fun r v => r.set i v) rows vals).map (fun r => r.getD i Value.vNull) =
      vals := by
  induction rows generalizing vals with
  | nil => cases vals with
    | nil => simp
    | cons v vs => simp at hlen
  | cons r rs ih =>
    cases vals with
    | nil => simp at hlen
    | cons v vs =>
      simp only [List.zipWith_cons_cons, List.map_cons]
      rw [ih vs (by simpa using hlen) (fun r hr => hbound r (List.mem_cons_of_mem _ hr))]
      congr 1
      have hi : i < r.length := hbound r (List.mem_cons_self r rs)
      simp [List.getD, List.getElem?_set_self, hi]

theorem getCol_setCol_ne (df : DataFrame) (c cQuery : String) (vals : List Value)
    (hne : cQuery ≠ c) (hc : c ∈ df.columns) (hlen : vals.length = df.rows.length) :
    (df.setCol c vals).getCol cQuery = df.getCol cQuery := by
  unfold DataFrame.setCol DataFrame.getCol
  rw [if_pos hc]
  by_cases hq : cQuery ∈ df.columns
  · rw [if_pos hq, if_pos hq]
    have hij : df.columns.indexOf c ≠ df.columns.indexOf cQuery := by
      intro heq
      exact hne ((List.indexOf_inj hc hq).mp heq).symm
    rw [map_getD_zipWith_set df.rows vals _ _ hij hlen]
  · rw [if_neg hq, if_neg hq]

theorem getCol_setCol_self (df : DataFrame) (c : String) (vals : List Value)
    (hrect : df.Rect) (hc : c ∈ df.columns) (hlen : vals.length = df.rows.length) :
    (df.setCol c vals).getCol c = some vals := by
  unfold DataFrame.setCol DataFrame.getCol
  rw [if_pos hc, if_pos hc]
  congr 1
  apply map_getD_zipWith_set_self df.rows vals _ hlen
  intro r hr
  rw [hrect r hr]
  exact List.indexOf_lt_length.mpr hc

theorem setCol_rows_length (df : DataFrame) (c : String) (vals : List Value)
    (hc : c ∈ df.columns) (hlen : vals.length = df.rows.length) :
    (df.setCol c vals).rows.length = df.rows.length := by
  unfold DataFrame.setCol
  rw [if_pos hc]
  simp [hlen]

theorem priceStep_columns (df : DataFrame) : (priceStep df).1.columns = df.columns := by
  unfold priceStep
  cases h : df.getCol "price_usd" with
  | none => rfl
  | some col => exact setCol_columns_of_mem df _ _ (getCol_mem df _ _ h)

theorem priceStep_rect (df : DataFrame) (hrect : df.Rect) : (priceStep df).1.Rect := by
  unfold priceStep
  cases h : df.getCol "price_usd" with
  | none => exact hrect
  | some col => exact setCol_rect df _ _ hrect (getCol_mem df _ _ h)

theorem priceStep_rows_length (df : DataFrame) :
    (priceStep df).1.rows.length = df.rows.length := by
  unfold priceStep
  cases h : df.getCol "price_usd" with
  | none => rfl
  | some col =>
    exact setCol_rows_length df _ _ (getCol_mem df _ _ h)
      (by simpa using getCol_length df _ _ h)

theorem priceStep_getCol_ne (df : DataFrame) (cQuery : String) (hne : cQuery ≠ "price_usd") :
    (priceStep df).1.getCol cQuery = df.getCol cQuery := by
  unfold priceStep
  cases h : df.getCol "price_usd" with
  | none => rfl
  | some col =>
    exact getCol_setCol_ne df _ _ _ hne (getCol_mem df _ _ h)
      (by simpa using getCol_length df _ _ h)

theorem validate_excel_file_known (df0 : DataFrame) (t : String) (req : List String)
    (hprod : t ≠ "products") (hreq : requiredColumns t = some req) :
    validate_excel_file df0 t =
      ⟨df0, (missingColumnsErrors req df0 ++ dateErrors t df0).isEmpty,
       missingColumnsErrors req df0 ++ dateErrors t df0, 0, 0⟩ := by
  unfold validate_excel_file
  simp only [if_neg hprod, hreq, List.append_nil]

theorem fkMasks_length (dfCust dfProd custRef prodRef : List Value) :
    (fkMasks dfCust dfProd custRef prodRef).length = min dfCust.length dfProd.length := by
  simp [fkMasks]

theorem reconcile_perm (rows : List Row) (m : List (Bool × Bool)) (h : rows.length ≤ m.length) :
    List.Perm (reconcileValid rows m ++ (reconcileInvalidTagged rows m).map Prod.fst) rows := by
  unfold reconcileValid reconcileInvalidTagged
  rw [← List.map_append]
  have hperm := (List.filter_append_perm
    (fun t : Row × Bool × Bool => t.2.1 && t.2.2) (rows.zip m)).map Prod.fst
  rwa [List.map_fst_zip rows m h] at hperm

theorem reconcileValid_sublist (rows : List Row) (m : List (Bool × Bool))
    (h : rows.length ≤ m.length) : List.Sublist (reconcileValid rows m) rows := by
  unfold reconcileValid
  have hs := (List.filter_sublist (l := rows.zip m)
    (p := fun t : Row × Bool × Bool => t.2.1 && t.2.2)).map Prod.fst
  rwa [List.map_fst_zip rows m h] at hs

theorem reconcileInvalid_sublist (rows : List Row) (m : List (Bool × Bool))
    (h : rows.length ≤ m.length) :
    List.Sublist ((reconcileInvalidTagged rows m).map Prod.fst) rows := by
  unfold reconcileInvalidTagged
  have hs := (List.filter_sublist (l := rows.zip m)
    (p := fun t : Row × Bool × Bool => !(t.2.1 && t.2.2))).map Prod.fst
  rwa [List.map_fst_zip rows m h] at hs

theorem origRows_reconcileInvalidDF (cols : List String) (rows : List Row)
    (m : List (Bool × Bool)) (hvr : "validation_reason" ∉ cols) :
    origRows (reconcileInvalidDF cols rows m) = (reconcileInvalidTagged rows m).map Prod.fst := by
  unfold reconcileInvalidDF
  by_cases hit : (reconcileInvalidTagged rows m).isEmpty = true
  · rw [if_pos hit]
    have hnil : reconcileInvalidTagged rows m = [] := List.isEmpty_iff.mp hit
    simp [origRows, hvr, hnil]
  · rw [if_neg hit]
    unfold DataFrame.setCol
    rw [if_neg hvr]
    unfold origRows
    rw [if_pos (by simp)]
    show (List.zipWith (fun r v => r ++ [v]) ((reconcileInvalidTagged rows m).map Prod.fst)
      ((reconcileInvalidTagged rows m).map (fun t => Value.vStr (reasonFor t.2.1 t.2.2)))).map
        List.dropLast = _
    rw [List.zipWith_map (fun (r : Row) (v : Value) => r ++ [v]) Prod.fst
      (fun t : Row × Bool × Bool => Value.vStr (reasonFor t.2.1 t.2.2)) _ _,
      List.zipWith_same, List.map_map]
    apply List.map_congr_left
    intro t _
    exact List.dropLast_concat

theorem validate_excel_file_products_eq (df0 : DataFrame) :
    validate_excel_file df0 "products" =
      ⟨(activeStep (priceStep df0).1).1,
       (missingColumnsErrors ["product_id", "description", "category", "price_usd", "active"]
          (activeStep (priceStep df0).1).1 ++
        productsDtypeErrors (activeStep (priceStep df0).1).1 ++
        dateErrors "products" (activeStep (priceStep df0).1).1).isEmpty,
       missingColumnsErrors ["product_id", "description", "category", "price_usd", "active"]
          (activeStep (priceStep df0).1).1 ++
        productsDtypeErrors (activeStep (priceStep df0).1).1 ++
        dateErrors "products" (activeStep (priceStep df0).1).1,
       (priceStep df0).2, (activeStep (priceStep df0).1).2⟩ := rfl

theorem activeStep_after_price (df : DataFrame) (col : List Value)
    (hrect : df.Rect) (hcol : df.getCol "active" = some col) :
    activeStep (priceStep df).1 =
      ((priceStep df).1.setCol "active" (col.map mapActive),
       (col.map mapActive).countP (fun v => decide (v = Value.vNull))) ∧
    (activeStep (priceStep df).1).1.getCol "active" = some (col.map mapActive) := by
  have h1 : (priceStep df).1.getCol "active" = some col := by
    rw [priceStep_getCol_ne df "active" (by decide)]
    exact hcol
  have hmem1 : "active" ∈ (priceStep df).1.columns := getCol_mem _ _ _ h1
  have hrect1 : (priceStep df).1.Rect := priceStep_rect df hrect
  have hlen1 : (col.map mapActive).length = (priceStep df).1.rows.length := by
    simpa using getCol_length _ _ _ h1
  have hstep : activeStep (priceStep df).1 =
      ((priceStep df).1.setCol "active" (col.map mapActive),
       (col.map mapActive).countP (fun v => decide (v = Value.vNull))) := by
    unfold activeStep
    rw [h1]
  refine ⟨hstep, ?_⟩
  rw [hstep]
  exact getCol_setCol_self (priceStep df).1 "active" (col.map mapActive) hrect1 hmem1 hlen1

theorem salesIncrementalLoad_of_empty (validIds : List Int) (store : Option Int) (ok : Bool)
    (h : validIds.isEmpty = true) :
    salesIncrementalLoad validIds store ok = ⟨[], store, []⟩ := by
  unfold salesIncrementalLoad
  rw [if_pos h]

theorem salesIncrementalLoad_of_noNew (validIds : List Int) (store : Option Int) (ok : Bool)
    (h1 : validIds.isEmpty = false)
    (h2 : (validIds.filter (fun i => decide (getMaxIdStore store < i))).isEmpty = true) :
    salesIncrementalLoad validIds store ok = ⟨[], store, []⟩ := by
  unfold salesIncrementalLoad
  rw [if_neg (by simp [h1]), if_pos h2]

theorem salesIncrementalLoad_of_new (validIds : List Int) (store : Option Int) (ok : Bool)
    (h1 : validIds.isEmpty = false)
    (h2 : (validIds.filter (fun i => decide (getMaxIdStore store < i))).isEmpty = false) :
    salesIncrementalLoad validIds store ok =
      ⟨validIds.filter (fun i => decide (getMaxIdStore store < i)),
       some (listMax (validIds.filter (fun i => decide (getMaxIdStore store < i)))),
       [Event.load "raw_sales" ok,
        Event.updateMeta "raw_sales"
          (some (listMax (validIds.filter (fun i => decide (getMaxIdStore store < i)))))]⟩ := by
  unfold salesIncrementalLoad
  rw [if_neg (by simp [h1]), if_neg (by simp [h2])]

/-!
## Claim theorems
-/

/-- C1 (code bug): reconciling salesEx against the reference frames, the
row failing only the customer check (sale 103) and the row failing only
the product check (sale 104) both receive the annotation text naming
both keys, exactly like the row failing both (sale 105).  The mask of
the final reason write on line 143 of src/validation.py covers every
invalid row, so it overwrites the two distinguishing writes of lines
141-142, which are dead code; the three-way distinction required by the
claim is never produced. -/
theorem reason_annotation_collapses_to_both :
    validate_relationships salesEx custRefEx prodRefEx =
      some (⟨["sale_id", "customer_id", "product_id"],
             [[.vInt 101, .vInt 1, .vInt 10], [.vInt 102, .vInt 2, .vInt 10]]⟩,
            ⟨["sale_id", "customer_id", "product_id", "validation_reason"],
             [[.vInt 103, .vInt 999, .vInt 10, .vStr "Invalid customer_id and product_id"],
              [.vInt 104, .vInt 1, .vInt 999, .vStr "Invalid customer_id and product_id"],
              [.vInt 105, .vInt 999, .vInt 999, .vStr "Invalid customer_id and product_id"]]⟩) := by
  rfl

/-- C2: the two frames returned by validate_relationships partition the
input exactly: concatenating the valid rows with the original records of
the invalid rows (their annotation cell removed) is a permutation of the
input rows, so no record is duplicated or dropped and each appears in
exactly one output; and both output row lists are sublists of the input
rows, so the relative order within each output preserves input order.
The hypothesis that the input does not already carry a
validation_reason column reflects the sales and support_tickets layouts,
whose columns never include it. -/
theorem reconcile_partitions_input
    (df customers_df products_df valid_df invalid_df : DataFrame)
    (hvr : "validation_reason" ∉ df.columns)
    (h : validate_relationships df customers_df products_df = some (valid_df, invalid_df)) :
    List.Perm (valid_df.rows ++ origRows invalid_df) df.rows ∧
    List.Sublist valid_df.rows df.rows ∧
    List.Sublist (origRows invalid_df) df.rows := by
  unfold validate_relationships at h
  split at h
  · simp only [Option.some.injEq, Prod.mk.injEq] at h
    obtain ⟨hv, hi⟩ := h
    subst hv hi
    refine ⟨?_, List.nil_sublist _, ?_⟩
    · simp [DataFrame.emptyDF, origRows, hvr]
    · simp [origRows, hvr]
  · split at h
    · rename_i custRef prodRef dfCust dfProd h1 h2 h3 h4
      simp only [Option.some.injEq, Prod.mk.injEq] at h
      obtain ⟨hv, hi⟩ := h
      subst hv hi
      have hlc : dfCust.length = df.rows.length := getCol_length df _ _ h3
      have hlp : dfProd.length = df.rows.length := getCol_length df _ _ h4
      have hlen : df.rows.length ≤ (fkMasks dfCust dfProd custRef prodRef).length := by
        rw [fkMasks_length, hlc, hlp]
        simp
      refine ⟨?_, reconcileValid_sublist df.rows _ hlen, ?_⟩
      · rw [origRows_reconcileInvalidDF _ _ _ hvr]
        exact reconcile_perm df.rows _ hlen
      · rw [origRows_reconcileInvalidDF _ _ _ hvr]
        exact reconcileInvalid_sublist df.rows _ hlen
    · cases h

/-- Witness for C2 at a concrete input: the reconciliation of salesEx
splits its five rows into two valid and three invalid ones, and the
partition and order properties hold for them. -/
theorem reconcile_partitions_input_witness :
    ("validation_reason" ∉ salesEx.columns ∧
      validate_relationships salesEx custRefEx prodRefEx =
        some (⟨["sale_id", "customer_id", "product_id"],
               [[.vInt 101, .vInt 1, .vInt 10], [.vInt 102, .vInt 2, .vInt 10]]⟩,
              ⟨["sale_id", "customer_id", "product_id", "validation_reason"],
               [[.vInt 103, .vInt 999, .vInt 10, .vStr "Invalid customer_id and product_id"],
                [.vInt 104, .vInt 1, .vInt 999, .vStr "Invalid customer_id and product_id"],
                [.vInt 105, .vInt 999, .vInt 999, .vStr "Invalid customer_id and product_id"]]⟩)) ∧
    (List.Perm ((⟨["sale_id", "customer_id", "product_id"],
        [[.vInt 101, .vInt 1, .vInt 10], [.vInt 102, .vInt 2, .vInt 10]]⟩ : DataFrame).rows ++
        origRows ⟨["sale_id", "customer_id", "product_id", "validation_reason"],
          [[.vInt 103, .vInt 999, .vInt 10, .vStr "Invalid customer_id and product_id"],
           [.vInt 104, .vInt 1, .vInt 999, .vStr "Invalid customer_id and product_id"],
           [.vInt 105, .vInt 999, .vInt 999, .vStr "Invalid customer_id and product_id"]]⟩)
        salesEx.rows ∧
     List.Sublist (⟨["sale_id", "customer_id", "product_id"],
        [[.vInt 101, .vInt 1, .vInt 10], [.vInt 102, .vInt 2, .vInt 10]]⟩ : DataFrame).rows
        salesEx.rows ∧
     List.Sublist (origRows ⟨["sale_id", "customer_id", "product_id", "validation_reason"],
          [[.vInt 103, .vInt 999, .vInt 10, .vStr "Invalid customer_id and product_id"],
           [.vInt 104, .vInt 1, .vInt 999, .vStr "Invalid customer_id and product_id"],
           [.vInt 105, .vInt 999, .vInt 999, .vStr "Invalid customer_id and product_id"]]⟩)
        salesEx.rows) := by
  refine ⟨⟨by decide, rfl⟩, ?_⟩
  exact reconcile_partitions_input salesEx custRefEx prodRefEx _ _ (by decide) rfl

/-- C3 (code bug): on a pipeline state in which both sales and
support_tickets reconciliation produced a non-empty invalid set, the
load phase never issues any warehouse call targeting the
invalid_support_tickets table (the quarantined tickets are silently
dropped, although src/schemas.py declares that table), and the one
invalid_sales load it issues carries the invalid frame unchanged: its
columns are the original record plus validation_reason, with neither the
error_reason nor the ingestion_timestamp field that the invalid_sales
schema marks REQUIRED. -/
theorem invalid_support_tickets_never_quarantined :
    c3TickRecon.2.rows.length = 1 ∧
    c3SalesRecon.2.rows.length = 1 ∧
    c3Ops.isSome = true ∧
    (c3Ops.getD []).filter (fun op => decide (op.table = "invalid_support_tickets")) = [] ∧
    (c3Ops.getD []).filter (fun op => decide (op.table = "invalid_sales")) =
      [LoadOp.load "invalid_sales" "WRITE_APPEND" c3SalesRecon.2] ∧
    c3SalesRecon.2.columns =
      ["sale_id", "customer_id", "product_id", "sale_date", "quantity", "channel",
       "payment_method", "validation_reason"] ∧
    c3SalesRecon.2.columns.contains "error_reason" = false ∧
    c3SalesRecon.2.columns.contains "ingestion_timestamp" = false := by
  decide

/-- C4 counterexample: a run in which the BigQuery load of the new sales
records fails (loadOk = false) still issues the watermark update, because
load_to_bigquery catches the failure.  Concretely, with one new sale id 5
and no stored watermark, the emitted events are the failed load followed
by the metadata update to 5. -/
theorem watermark_updated_after_failed_load :
    (salesIncrementalLoad [5] none false).events =
      [Event.load "raw_sales" false, Event.updateMeta "raw_sales" (some 5)] ∧
    Event.updateMeta "raw_sales" (some 5) ∈ (salesIncrementalLoad [5] none false).events := by
  refine ⟨rfl, ?_⟩
  decide

/-- C4 (amended): the sales block either emits no warehouse events (no
valid rows above the watermark) or emits exactly the load of the new
records followed by the watermark update; the update follows the load in
program order but is issued whether or not the load succeeded, since
load_to_bigquery swallows the failure. -/
theorem watermark_update_follows_load_unconditionally
    (validIds : List Int) (store : Option Int) (ok : Bool) :
    (salesIncrementalLoad validIds store ok).events = [] ∨
    ∃ v, (salesIncrementalLoad validIds store ok).events =
      [Event.load "raw_sales" ok, Event.updateMeta "raw_sales" (some v)] := by
  by_cases hids : validIds.isEmpty = true
  · left; rw [salesIncrementalLoad_of_empty validIds store ok hids]
  · rw [Bool.not_eq_true] at hids
    by_cases hnew : (validIds.filter (fun i => decide (getMaxIdStore store < i))).isEmpty = true
    · left; rw [salesIncrementalLoad_of_noNew validIds store ok hids hnew]
    · rw [Bool.not_eq_true] at hnew
      right
      exact ⟨listMax (validIds.filter (fun i => decide (getMaxIdStore store < i))),
        by rw [salesIncrementalLoad_of_new validIds store ok hids hnew]⟩

/-- C5: the sales block forwards exactly the valid records with sale id
strictly above the current watermark, and a second run on the same valid
record set, starting from the store the first run left behind, forwards
nothing (watermark filtering law). -/
theorem sales_filter_strict_and_second_run_empty
    (validIds : List Int) (store : Option Int) (ok1 ok2 : Bool) :
    (∀ i ∈ (salesIncrementalLoad validIds store ok1).forwarded, getMaxIdStore store < i) ∧
    (salesIncrementalLoad validIds
      (salesIncrementalLoad validIds store ok1).store ok2).forwarded = [] := by
  by_cases hids : validIds.isEmpty = true
  · rw [salesIncrementalLoad_of_empty validIds store ok1 hids]
    constructor
    · intro i hi; cases hi
    · rw [salesIncrementalLoad_of_empty validIds store ok2 hids]
  · rw [Bool.not_eq_true] at hids
    by_cases hnew : (validIds.filter (fun i => decide (getMaxIdStore store < i))).isEmpty = true
    · rw [salesIncrementalLoad_of_noNew validIds store ok1 hids hnew]
      constructor
      · intro i hi; cases hi
      · rw [salesIncrementalLoad_of_noNew validIds store ok2 hids hnew]
    · rw [Bool.not_eq_true] at hnew
      have hne : validIds.filter (fun i => decide (getMaxIdStore store < i)) ≠ [] := by
        simpa [List.isEmpty_iff] using hnew
      obtain ⟨x, hx⟩ := exists_mem_of_ne_nil _ hne
      have hwx : getMaxIdStore store < x := by
        have := (List.mem_filter.mp hx).2
        simpa using this
      have hxM : x ≤ listMax (validIds.filter (fun i => decide (getMaxIdStore store < i))) :=
        le_listMax _ _ hx
      have hwM : getMaxIdStore store <
          listMax (validIds.filter (fun i => decide (getMaxIdStore store < i))) :=
        lt_of_lt_of_le hwx hxM
      rw [salesIncrementalLoad_of_new validIds store ok1 hids hnew]
      constructor
      · intro i hi
        have := (List.mem_filter.mp hi).2
        simpa using this
      · have hfilter2 : validIds.filter (fun i =>
            decide (getMaxIdStore (some (listMax (validIds.filter
              (fun j => decide (getMaxIdStore store < j))))) < i)) = [] := by
          apply List.filter_eq_nil_iff.mpr
          intro i hi
          simp only [getMaxIdStore, Option.getD_some, decide_eq_true_eq]
          intro hMi
          have hiw : getMaxIdStore store < i := lt_trans hwM hMi
          have himem : i ∈ validIds.filter (fun j => decide (getMaxIdStore store < j)) :=
            List.mem_filter.mpr ⟨hi, by simpa using hiw⟩
          exact absurd hMi (not_lt_of_le (le_listMax _ _ himem))
        have hempty2 : (validIds.filter (fun i =>
            decide (getMaxIdStore (some (listMax (validIds.filter
              (fun j => decide (getMaxIdStore store < j))))) < i))).isEmpty = true := by
          rw [hfilter2]; rfl
        rw [salesIncrementalLoad_of_noNew validIds _ ok2 hids hempty2]

/-- C6 counterexample: a products record set in which every rule other
than the active coercion is satisfied, but whose single active cell
holds the unrecognized encoding yes.  The cell coerces to null and the
warning count is 1, but the record set does NOT remain valid: the
post-coercion column is no longer uniformly boolean, so the dtype check
of line 85 of src/validation.py fails and validate_excel_file returns
ok = false with that error as its only error. -/
theorem active_unmapped_value_invalidates :
    (validate_excel_file prodBadEx "products").ok = false ∧
    (validate_excel_file prodBadEx "products").errors =
      ["active must be boolean type after conversion"] ∧
    (validate_excel_file prodBadEx "products").activeWarnings = 1 := by
  refine ⟨?_, ?_, ?_⟩ <;> decide

/-- C6 (amended): the twelve listed boolean encodings coerce exactly as
the claim states, every cell outside the recognized dictionary coerces
to null and is counted as a warning, and the warning never becomes a
separate coercion error; however, any unmapped cell leaves a null in the
active column, so the boolean-dtype check fails and the record set is
invalid whenever at least one active cell is unrecognized. -/
theorem products_active_coercion_amended (df : DataFrame) (col : List Value)
    (hrect : df.Rect) (hcol : df.getCol "active" = some col) :
    (mapActive (Value.vStr "TRUE") = Value.vBool true ∧
     mapActive (Value.vStr "true") = Value.vBool true ∧
     mapActive (Value.vStr "True") = Value.vBool true ∧
     mapActive (Value.vInt 1) = Value.vBool true ∧
     mapActive (Value.vStr "1") = Value.vBool true ∧
     mapActive (Value.vBool true) = Value.vBool true ∧
     mapActive (Value.vStr "FALSE") = Value.vBool false ∧
     mapActive (Value.vStr "false") = Value.vBool false ∧
     mapActive (Value.vStr "False") = Value.vBool false ∧
     mapActive (Value.vInt 0) = Value.vBool false ∧
     mapActive (Value.vStr "0") = Value.vBool false ∧
     mapActive (Value.vBool false) = Value.vBool false) ∧
    (∀ v : Value, v ∉ activeMappedInputs → mapActive v = Value.vNull) ∧
    ((validate_excel_file df "products").activeWarnings =
      (col.map mapActive).countP (fun v => decide (v = Value.vNull))) ∧
    ((∃ v ∈ col, mapActive v = Value.vNull) →
      (validate_excel_file df "products").ok = false ∧
      "active must be boolean type after conversion" ∈
        (validate_excel_file df "products").errors) := by
  obtain ⟨hstep, hget⟩ := activeStep_after_price df col hrect hcol
  refine ⟨by decide, ?_, ?_, ?_⟩
  · intro v hv
    cases v with
    | vNull => rfl
    | vBool b => exact absurd (by cases b <;> simp [activeMappedInputs]) hv
    | vInt i =>
      have h1 : i ≠ 1 := fun h => hv (by simp [activeMappedInputs, h])
      have h0 : i ≠ 0 := fun h => hv (by simp [activeMappedInputs, h])
      simp [mapActive, h1, h0]
    | vFloat q =>
      have h1 : q ≠ 1 := fun h => hv (by simp [activeMappedInputs, h])
      have h0 : q ≠ 0 := fun h => hv (by simp [activeMappedInputs, h])
      simp [mapActive, h1, h0]
    | vStr s =>
      have hT : ¬(s = "TRUE" ∨ s = "true" ∨ s = "True" ∨ s = "1") := by
        rintro (rfl | rfl | rfl | rfl) <;> exact hv (by simp [activeMappedInputs])
      have hF : ¬(s = "FALSE" ∨ s = "false" ∨ s = "False" ∨ s = "0") := by
        rintro (rfl | rfl | rfl | rfl) <;> exact hv (by simp [activeMappedInputs])
      simp [mapActive, hT, hF]
  · rw [validate_excel_file_products_eq, hstep]
  · rintro ⟨v, hvmem, hvnull⟩
    have hallfalse : (col.map mapActive).all isBoolCell = false := by
      apply List.all_eq_false.mpr
      refine ⟨mapActive v, List.mem_map_of_mem mapActive hvmem, ?_⟩
      rw [hvnull]
      decide
    have herr : "active must be boolean type after conversion" ∈
        productsDtypeErrors (activeStep (priceStep df).1).1 := by
      unfold productsDtypeErrors
      rw [hget]
      apply List.mem_append_right
      simp [hallfalse]
    have herrAll : "active must be boolean type after conversion" ∈
        missingColumnsErrors ["product_id", "description", "category", "price_usd", "active"]
          (activeStep (priceStep df).1).1 ++
        productsDtypeErrors (activeStep (priceStep df).1).1 ++
        dateErrors "products" (activeStep (priceStep df).1).1 :=
      List.mem_append_left _ (List.mem_append_right _ herr)
    constructor
    · rw [validate_excel_file_products_eq]
      show (missingColumnsErrors _ _ ++ productsDtypeErrors _ ++ dateErrors _ _).isEmpty = false
      exact List.isEmpty_eq_false.mpr (List.ne_nil_of_mem herrAll)
    · rw [validate_excel_file_products_eq]
      exact herrAll

/-- Witness for C6 (amended) at a concrete input: prodBadEx is
rectangular, its active column is the single cell yes, and the amended
conclusions hold there, in particular the unmapped cell makes the
record set invalid with the boolean-dtype error reported. -/
theorem products_active_coercion_amended_witness :
    (prodBadEx.Rect ∧ prodBadEx.getCol "active" = some [Value.vStr "yes"]) ∧
    ((validate_excel_file prodBadEx "products").activeWarnings =
      ([Value.vStr "yes"].map mapActive).countP (fun v => decide (v = Value.vNull)) ∧
     (validate_excel_file prodBadEx "products").ok = false ∧
     "active must be boolean type after conversion" ∈
       (validate_excel_file prodBadEx "products").errors) := by
  have h := products_active_coercion_amended prodBadEx [Value.vStr "yes"] (by decide) rfl
  exact ⟨⟨by decide, rfl⟩,
    h.2.2.1, (h.2.2.2 ⟨Value.vStr "yes", by decide, rfl⟩).1, (h.2.2.2 ⟨Value.vStr "yes", by decide, rfl⟩).2⟩

/-- Witness for C5 at a concrete input: two sales records 101 and 102,
an absent watermark row, a successful first load and a failed second
call; the second run forwards nothing. -/
theorem sales_filter_strict_and_second_run_empty_witness :
    (∀ i ∈ (salesIncrementalLoad [101, 102] none true).forwarded, getMaxIdStore none < i) ∧
    (salesIncrementalLoad [101, 102]
      (salesIncrementalLoad [101, 102] none true).store false).forwarded = [] :=
  sales_filter_strict_and_second_run_empty [101, 102] none true false

/-- C7: when either reference frame is empty, validate_relationships
returns the empty frame as the valid set and the whole input, unmodified
and unannotated, as the invalid set (src/validation.py lines 123-124). -/
theorem empty_reference_returns_input_invalid
    (df customers_df products_df : DataFrame)
    (h : customers_df.rows = [] ∨ products_df.rows = []) :
    validate_relationships df customers_df products_df = some (DataFrame.emptyDF, df) := by
  rcases h with h | h <;> simp [validate_relationships, DataFrame.isEmptyDF, h]

/-- Witness for C7 at a concrete input: an empty products reference with
a non-empty sales input. -/
theorem empty_reference_returns_input_invalid_witness :
    ((custRefEx.rows = [] ∨ (⟨["product_id"], []⟩ : DataFrame).rows = []) ∧
      validate_relationships salesEx custRefEx ⟨["product_id"], []⟩ =
        some (DataFrame.emptyDF, salesEx)) :=
  ⟨Or.inr rfl, empty_reference_returns_input_invalid salesEx custRefEx ⟨["product_id"], []⟩ (Or.inr rfl)⟩

/-- C8 counterexample: a customers record set whose required name column
is present and holds a null in its only record, while every column is
present and the registration date parses.  validate_excel_file returns
ok = true with an empty error list: the source has no null-value check
at all, so the claimed error naming the offending column never exists. -/
theorem null_in_required_column_not_flagged :
    custNullEx.getCol "name" = some [Value.vNull] ∧
    (validate_excel_file custNullEx "customers").ok = true ∧
    (validate_excel_file custNullEx "customers").errors = [] := by
  refine ⟨?_, ?_, ?_⟩ <;> decide

/-- C8 (amended): validate_excel_file performs no null-value check.  For
the non-products kinds, whenever every required column is present and
every present date column parses, the result is ok = true with no
errors, regardless of null cells in required columns.  (For products,
nulls surface only indirectly, through the boolean-dtype check on the
coerced active column.) -/
theorem no_null_value_check
    (t : String) (df : DataFrame)
    (ht : t = "customers" ∨ t = "sales" ∨ t = "support_tickets")
    (hreq : ∀ c ∈ (requiredColumns t).getD [], c ∈ df.columns)
    (hdate : ∀ c ∈ dateColumns t, ∀ col, df.getCol c = some col →
      col.all parseDateValue = true) :
    (validate_excel_file df t).ok = true ∧ (validate_excel_file df t).errors = [] := by
  have hfil : ((requiredColumns t).getD []).filter (fun c => decide (c ∉ df.columns)) = [] := by
    apply List.filter_eq_nil_iff.mpr
    intro c hc
    simp [hreq c hc]
  have hmiss : missingColumnsErrors ((requiredColumns t).getD []) df = [] := by
    unfold missingColumnsErrors
    rw [hfil]
    rfl
  have hdates : dateErrors t df = [] := by
    unfold dateErrors
    apply List.filterMap_eq_nil_iff.mpr
    intro c hc
    cases hcol : df.getCol c with
    | none => rfl
    | some col =>
      have hall := hdate c hc col hcol
      simp [hall]
  rcases ht with rfl | rfl | rfl
  · rw [validate_excel_file_known df "customers" ((requiredColumns "customers").getD [])
      (by decide) rfl]
    rw [hmiss, hdates]
    exact ⟨rfl, rfl⟩
  · rw [validate_excel_file_known df "sales" ((requiredColumns "sales").getD [])
      (by decide) rfl]
    rw [hmiss, hdates]
    exact ⟨rfl, rfl⟩
  · rw [validate_excel_file_known df "support_tickets"
      ((requiredColumns "support_tickets").getD []) (by decide) rfl]
    rw [hmiss, hdates]
    exact ⟨rfl, rfl⟩

/-- Witness for C8 (amended) at a concrete input: the customers frame
with a null name passes validation with no errors. -/
theorem no_null_value_check_witness :
    (("customers" = "customers" ∨ "customers" = "sales" ∨ "customers" = "support_tickets") ∧
     (∀ c ∈ (requiredColumns "customers").getD [], c ∈ custNullEx.columns) ∧
     (∀ c ∈ dateColumns "customers", ∀ col, custNullEx.getCol c = some col →
        col.all parseDateValue = true)) ∧
    ((validate_excel_file custNullEx "customers").ok = true ∧
     (validate_excel_file custNullEx "customers").errors = []) := by
  have hdate : ∀ c ∈ dateColumns "customers", ∀ col, custNullEx.getCol c = some col →
      col.all parseDateValue = true := by
    intro c hc col hcol
    have hc2 : c = "registration_date" := by simpa [dateColumns] using hc
    subst hc2
    have hval : custNullEx.getCol "registration_date" = some [Value.vStr "2020-01-05"] := rfl
    rw [hval] at hcol
    cases hcol
    decide
  exact ⟨⟨Or.inl rfl, by decide, hdate⟩,
    no_null_value_check "customers" custNullEx (Or.inl rfl) (by decide) hdate⟩

/-- C9: one execution of the sales block never decreases the stored
watermark: the update writes the maximum of the records it filtered
strictly above the old watermark, which exceeds it, and otherwise the
store is untouched. -/
theorem watermark_monotone
    (validIds : List Int) (store : Option Int) (ok : Bool) :
    getMaxIdStore store ≤ getMaxIdStore (salesIncrementalLoad validIds store ok).store := by
  by_cases hids : validIds.isEmpty = true
  · rw [salesIncrementalLoad_of_empty validIds store ok hids]
  · rw [Bool.not_eq_true] at hids
    by_cases hnew : (validIds.filter (fun i => decide (getMaxIdStore store < i))).isEmpty = true
    · rw [salesIncrementalLoad_of_noNew validIds store ok hids hnew]
    · rw [Bool.not_eq_true] at hnew
      have hne : validIds.filter (fun i => decide (getMaxIdStore store < i)) ≠ [] := by
        simpa [List.isEmpty_iff] using hnew
      obtain ⟨x, hx⟩ := exists_mem_of_ne_nil _ hne
      have hwx : getMaxIdStore store < x := by
        have := (List.mem_filter.mp hx).2
        simpa using this
      have hxM : x ≤ listMax (validIds.filter (fun i => decide (getMaxIdStore store < i))) :=
        le_listMax _ _ hx
      rw [salesIncrementalLoad_of_new validIds store ok hids hnew]
      exact le_of_lt (lt_of_lt_of_le hwx hxM)

/-- C10: validate_excel_file mutates its frame only for the products
kind; for every other table name, known or unknown, the returned frame is
the input frame unchanged. -/
theorem validate_excel_file_frame_unchanged
    (df : DataFrame) (table_name : String) (h : table_name ≠ "products") :
    (validate_excel_file df table_name).df = df := by
  unfold validate_excel_file
  simp only [if_neg h]
  cases hreq : requiredColumns table_name <;> simp

/-- Witness for C10 at a concrete input: validating a customers frame
leaves it unchanged. -/
theorem validate_excel_file_frame_unchanged_witness :
    ("customers" ≠ "products") ∧ (validate_excel_file custRefEx "customers").df = custRefEx :=
  ⟨by decide, validate_excel_file_frame_unchanged custRefEx "customers" (by decide)⟩

end Ingest
